import Mathlib

/-!
# Verification of the Opportunity job-search core

Shallow embedding of the repository's domain logic:

* `ProfileService.getOrCreateProfile` (src/lib/env/validate.ts, the profile
  service) over an explicit profiles store, including the interleaved-write
  ("race") semantics of its separate lookup and insert steps, and its
  execution against the `profiles` table the migration actually creates
  (whose schema rejects this service's insert payload);
* the `ensureProfile` server action (src/app/actions/auth.ts);
* the OAuth callback handler `GET` (src/app/auth/callback/route.ts);
* the SQL schema and RLS policies of src/unnamed/part_000
  (profiles, applications, artifacts, audit_log);
* the application-pipeline operations (`createApplication`, `updateStatus`)
  and the artifact create/approve operations, which are specified but not
  implemented in the source tree, modelled from the specification.

JavaScript `||` chains over possibly-absent strings are modelled by
truthiness on `Option String` (absent and `""` are falsy).
-/

deriving instance DecidableEq for Except

namespace Opportunity

/-- JS truthiness for an optional string: `none` and `some ""` are falsy. -/
def jsTruthy : Option String → Bool
  | none => false
  | some s => !(s == "")

/-- JS `a || b` over optional strings: keep `a` when truthy, else `b`. -/
def jsOr (a b : Option String) : Option String :=
  if jsTruthy a then a else b

/-- First truthy (present and non-empty) element of a JS `||` chain, else `none`. -/
def firstTruthy : List (Option String) → Option String
  | [] => none
  | x :: rest => if jsTruthy x then x else firstTruthy rest

/-- JS `email.split('@')[0]`: everything before the first `@`. -/
def localPart (e : String) : String :=
  (e.splitOn "@").headD ""

/-- The provider metadata bag (`user.user_metadata`), with the keys the
profile service reads. -/
structure UserMetadata where
  full_name : Option String
  name : Option String
  avatar_url : Option String
  picture : Option String
  linkedin_url : Option String
deriving DecidableEq, Repr

/-- The authenticated user value handed to the profile service
(opaque id, optional email, metadata bag). -/
structure AuthUser where
  id : String
  email : Option String
  user_metadata : UserMetadata
deriving DecidableEq, Repr

/-- The row shape `getOrCreateProfile` SENDS to `profiles`
(the insert payload of src/lib/env/validate.ts, field for field). This is
the service code's own picture of a profile row; the migrated table's actual
shape is `SchemaProfileRow` below, and the two disagree. -/
structure ProfileRow where
  id : String
  email : String
  full_name : String
  avatar_url : Option String
  linkedin_url : Option String
  preferred_countries : List String
  preferred_roles : List String
  seniority_level : Option String
  remote_preference : Option String
deriving DecidableEq, Repr

/-- The profiles store AS THE SERVICE CODE ASSUMES IT: rows of its own
payload shape, keyed by `id`. The service's lookup/insert logic is analysed
over this assumed store (its control flow — short-circuit, no re-read on
error — is independent of the row shape); the store the migration actually
creates is `MigratedProfilesDB` below, which rejects this service's insert
outright (see `getOrCreateProfile_cannot_create`). -/
structure ProfilesDB where
  rows : List ProfileRow
deriving DecidableEq, Repr

/-- Storage-layer error surfaced by an insert. -/
inductive DbError
  | uniqueViolation
  | undefinedColumn
  | notNullViolation
deriving DecidableEq, Repr

/-- `.from('profiles').select('*').eq('id', uid).single()`:
first row whose `id` equals `uid`. -/
def findProfile (uid : String) (s : ProfilesDB) : Option ProfileRow :=
  s.rows.find? (fun r => r.id == uid)

/-- Insert into the service-assumed store, failing with a uniqueness
violation when a row with the same primary key already exists. Only the
FAILURE branch of this insert is realizable by the program: the migrated
table rejects the service's payload before any constraint is checked
(`migratedInsert`, `getOrCreateProfile_cannot_create`); the branch is kept so
the service's error handling (return the error, no re-read) can be stated
against the storage outcome the spec's race scenario hypothesizes. -/
def insertProfile (p : ProfileRow) (s : ProfilesDB) : Except DbError ProfilesDB :=
  if s.rows.any (fun r => r.id == p.id) then
    Except.error DbError.uniqueViolation
  else
    Except.ok ⟨s.rows ++ [p]⟩

/-- `full_name` derivation of the insert payload:
`full_name || name || email?.split('@')[0] || 'User'`. -/
def derivedFullName (u : AuthUser) : String :=
  (firstTruthy [u.user_metadata.full_name, u.user_metadata.name,
    u.email.map localPart]).getD "User"

/-- `avatar_url` derivation of the insert payload:
`avatar_url || picture || null`. -/
def derivedAvatarUrl (m : UserMetadata) : Option String :=
  firstTruthy [m.avatar_url, m.picture]

/-- The full insert payload `getOrCreateProfile` builds for a missing profile. -/
def mkNewProfile (u : AuthUser) : ProfileRow where
  id := u.id
  email := u.email.getD ""
  full_name := derivedFullName u
  avatar_url := derivedAvatarUrl u.user_metadata
  linkedin_url := firstTruthy [u.user_metadata.linkedin_url]
  preferred_countries := []
  preferred_roles := []
  seniority_level := none
  remote_preference := none

/-- `getOrCreateProfile` with its two storage accesses made explicit:
the lookup runs against `sLookup` and the insert against `sInsert`
(they differ exactly when another request wrote between the two steps).
On insert failure the service returns the error without re-reading. -/
def getOrCreateProfileRace (u : AuthUser) (sLookup sInsert : ProfilesDB) :
    Except DbError ProfileRow × ProfilesDB :=
  match findProfile u.id sLookup with
  | some existing => (Except.ok existing, sInsert)
  | none =>
    match insertProfile (mkNewProfile u) sInsert with
    | Except.ok s' => (Except.ok (mkNewProfile u), s')
    | Except.error e => (Except.error e, sInsert)

/-- `getOrCreateProfile` run without interference: lookup and insert see the
same store. -/
def getOrCreateProfile (u : AuthUser) (s : ProfilesDB) :
    Except DbError ProfileRow × ProfilesDB :=
  getOrCreateProfileRace u s s

/-- Number of rows of the store keyed to `uid`. -/
def profileCount (uid : String) (s : ProfilesDB) : Nat :=
  (s.rows.filter (fun r => r.id == uid)).length

end Opportunity

namespace Opportunity

/-! ## Column-level facts: the service against the `profiles` migration -/

/-- Columns of the `profiles` table as created by the migration
(src/unnamed/part_000, `create table profiles`). -/
def profilesSchemaColumns : List String :=
  ["id", "user_id", "preferred_countries", "target_roles",
   "seniority_level", "remote_preference", "created_at", "updated_at"]

/-- The owning-user reference column of `profiles` per the migration:
`user_id uuid references auth.users(id) ... not null`, with `unique(user_id)`. -/
def profilesOwningUserColumn : String := "user_id"

/-- The column `getOrCreateProfile`'s existence check filters on:
`.eq('id', user.id)`. -/
def getOrCreateLookupColumn : String := "id"

/-- The columns of `getOrCreateProfile`'s insert payload, in source order. -/
def getOrCreateInsertColumns : List String :=
  ["id", "email", "full_name", "avatar_url", "linkedin_url",
   "preferred_countries", "preferred_roles", "seniority_level", "remote_preference"]

/-- **C4 (code bug evidence).** The service is NOT keyed on the owning-user
reference: its lookup filters on the `id` primary key, not `user_id`; its
insert payload never sets `user_id` (declared NOT NULL by the migration) and
writes columns (`email`, `preferred_roles`, …) that do not exist in the
`profiles` schema. -/
theorem getOrCreateProfile_not_keyed_on_user_id :
    getOrCreateLookupColumn ≠ profilesOwningUserColumn ∧
    profilesOwningUserColumn ∉ getOrCreateInsertColumns ∧
    "email" ∉ profilesSchemaColumns ∧
    "full_name" ∉ profilesSchemaColumns ∧
    "preferred_roles" ∉ profilesSchemaColumns := by
  decide

/-! ## The migrated `profiles` table and the service's insert (C1) -/

/-- A `profiles` row as the MIGRATION defines it
(src/unnamed/part_000: `id` uuid primary key default gen_random_uuid(),
`user_id` uuid NOT NULL unique, `preferred_countries`, `target_roles`,
`seniority_level`, `remote_preference`; timestamps elided). -/
structure SchemaProfileRow where
  id : String
  user_id : String
  preferred_countries : List String
  target_roles : List String
  seniority_level : Option String
  remote_preference : Option String
deriving DecidableEq, Repr

/-- The profiles store the migration actually creates: schema-shaped rows. -/
structure MigratedProfilesDB where
  rows : List SchemaProfileRow
deriving DecidableEq, Repr

/-- The `profiles` columns declared NOT NULL without a default, which every
INSERT must therefore name: only `user_id` (the uuid/timestamp columns carry
defaults). -/
def profilesNotNullNoDefault : List String := ["user_id"]

/-- Whether the migrated `profiles` table accepts an INSERT naming exactly
the given columns: every named column must exist in the schema, and every
NOT NULL column without a default must be named. -/
def profilesInsertAccepted (cols : List String) : Bool :=
  cols.all (fun c => profilesSchemaColumns.contains c) &&
  profilesNotNullNoDefault.all (fun c => cols.contains c)

/-- An INSERT against the migrated `profiles` table, characterized by the
column list the statement names and the row it would produce: rejected for an
undefined column, then for a missing NOT NULL `user_id`, then for a
`unique(user_id)` violation; otherwise the row is appended. -/
def migratedInsert (cols : List String) (row : SchemaProfileRow)
    (s : MigratedProfilesDB) : Except DbError MigratedProfilesDB :=
  if !(cols.all (fun c => profilesSchemaColumns.contains c)) then
    Except.error DbError.undefinedColumn
  else if !(profilesNotNullNoDefault.all (fun c => cols.contains c)) then
    Except.error DbError.notNullViolation
  else if s.rows.any (fun r => r.user_id == row.user_id) then
    Except.error DbError.uniqueViolation
  else
    Except.ok ⟨s.rows ++ [row]⟩

/-- `getOrCreateProfile` as it executes against the MIGRATED `profiles`
table: the lookup filters the `id` column (`.eq('id', user.id)`); on a miss
the service issues its INSERT — naming the columns of
`getOrCreateInsertColumns`, and `row` stands for whatever row it would
produce — and on any insert error returns that error with no recovery path
(src/lib/env/validate.ts:89-92). -/
def getOrCreateProfileMigrated (u : AuthUser) (row : SchemaProfileRow)
    (s : MigratedProfilesDB) :
    Except DbError SchemaProfileRow × MigratedProfilesDB :=
  match s.rows.find? (fun r => r.id == u.id) with
  | some p => (Except.ok p, s)
  | none =>
    match migratedInsert getOrCreateInsertColumns row s with
    | Except.ok s' => (Except.ok row, s')
    | Except.error e => (Except.error e, s)

/-- **C1 (code bug evidence).** The migrated `profiles` table rejects the
service's insert unconditionally: its column list names columns the table
does not have (and omits the NOT NULL `user_id`). So for a user with no
existing profile row, `getOrCreateProfile` — whatever row its insert would
have produced — returns an error and writes nothing, and a repeated call
does the same: calls never yield the one Profile row the claim promises. -/
theorem getOrCreateProfile_cannot_create (u : AuthUser) (row : SchemaProfileRow)
    (s : MigratedProfilesDB)
    (hmiss : s.rows.find? (fun r => r.id == u.id) = none) :
    profilesInsertAccepted getOrCreateInsertColumns = false ∧
    getOrCreateProfileMigrated u row s =
      (Except.error DbError.undefinedColumn, s) ∧
    getOrCreateProfileMigrated u row ((getOrCreateProfileMigrated u row s).2) =
      (Except.error DbError.undefinedColumn, s) := by
  have hex : ∃ x ∈ getOrCreateInsertColumns, x ∉ profilesSchemaColumns := by
    decide
  have hrun : getOrCreateProfileMigrated u row s =
      (Except.error DbError.undefinedColumn, s) := by
    simp [getOrCreateProfileMigrated, hmiss, migratedInsert, hex]
  refine ⟨by decide, hrun, ?_⟩
  rw [hrun]
  exact hrun

/-- Witness for the C1 evidence: a first-time user against the freshly
migrated (empty) profiles table. -/
theorem getOrCreateProfile_cannot_create_witness :
    getOrCreateProfileMigrated ⟨"u1", none, ⟨none, none, none, none, none⟩⟩
        ⟨"p1", "u1", [], [], none, none⟩ ⟨[]⟩ =
      (Except.error DbError.undefinedColumn, ⟨[]⟩) :=
  (getOrCreateProfile_cannot_create ⟨"u1", none, ⟨none, none, none, none, none⟩⟩
    ⟨"p1", "u1", [], [], none, none⟩ ⟨[]⟩ rfl).2.1

/-! ## The concurrent-duplicate race (C5) -/

/-- Concrete user for the race scenario: no email, empty metadata bag. -/
def raceUser : AuthUser := ⟨"u1", none, ⟨none, none, none, none, none⟩⟩

/-- The profile a concurrent request inserted between our lookup and insert. -/
def racePeerRow : ProfileRow := mkNewProfile raceUser

/-- **C5 counterexample.** In the concurrent-duplicate race (lookup sees an
empty store, a peer's row lands before our insert), `getOrCreateProfile`
returns the uniqueness-violation error — it does not re-read and return the
existing profile as the claim states. -/
theorem getOrCreateProfile_race_returns_error :
    (getOrCreateProfileRace raceUser ⟨[]⟩ ⟨[racePeerRow]⟩).1 =
      Except.error DbError.uniqueViolation ∧
    (getOrCreateProfileRace raceUser ⟨[]⟩ ⟨[racePeerRow]⟩).1 ≠
      Except.ok racePeerRow := by
  decide

/-- **C5 amended.** Under the concurrent-duplicate race the storage layer's
uniqueness constraint rejects the duplicate insert, so the store is left
exactly as the concurrent writer left it — never two profiles for the same
user — but `getOrCreateProfile` surfaces the uniqueness-violation error to
its caller instead of re-reading and returning the existing profile. -/
theorem getOrCreateProfile_race_unique_error (u : AuthUser) (sL sI : ProfilesDB)
    (hmiss : findProfile u.id sL = none)
    (hdup : ∃ q ∈ sI.rows, q.id = u.id) :
    getOrCreateProfileRace u sL sI = (Except.error DbError.uniqueViolation, sI) ∧
    profileCount u.id (getOrCreateProfileRace u sL sI).2 = profileCount u.id sI := by
  obtain ⟨q, hq, hqid⟩ := hdup
  have hany : sI.rows.any (fun r => r.id == (mkNewProfile u).id) = true :=
    List.any_eq_true.mpr ⟨q, hq, by simp [mkNewProfile, hqid]⟩
  constructor
  · simp [getOrCreateProfileRace, hmiss, insertProfile, hany]
  · simp [getOrCreateProfileRace, hmiss, insertProfile, hany]

/-- Witness for the amended C5 at the concrete race scenario. -/
theorem getOrCreateProfile_race_unique_error_witness :
    getOrCreateProfileRace raceUser ⟨[]⟩ ⟨[racePeerRow]⟩ =
      (Except.error DbError.uniqueViolation, ⟨[racePeerRow]⟩) := by
  exact (getOrCreateProfile_race_unique_error raceUser ⟨[]⟩ ⟨[racePeerRow]⟩
    (by decide) ⟨racePeerRow, by decide, by decide⟩).1

/-! ## Construction of the new profile (C6) -/

/-- First element of a candidate list that is present and non-empty
(spec §4.1 step 3 wording). -/
def firstPresentNonEmpty : List (Option String) → Option String
  | [] => none
  | none :: rest => firstPresentNonEmpty rest
  | some s :: rest => if s = "" then firstPresentNonEmpty rest else some s

/-- Modelled from the spec's words: derived display name = first of
{metadata "full_name", metadata "name", local-part of email, literal "User"}
that is present and non-empty. -/
def specDisplayName (u : AuthUser) : String :=
  (firstPresentNonEmpty
    [u.user_metadata.full_name, u.user_metadata.name, u.email.map localPart]).getD "User"

/-- Modelled from the spec's words: derived avatar URL = first of
{metadata "avatar_url", metadata "picture"} that is PRESENT (empty or not),
else null. -/
def specAvatarUrl (m : UserMetadata) : Option String :=
  match m.avatar_url with
  | some s => some s
  | none => m.picture

/-- Avatar derivation as the code actually behaves: first candidate that is
present AND non-empty, else null. -/
def specAvatarUrlNonEmpty (m : UserMetadata) : Option String :=
  firstPresentNonEmpty [m.avatar_url, m.picture]

/-- Metadata bag with a present-but-empty `avatar_url` and a non-empty
`picture`. -/
def emptyAvatarMeta : UserMetadata := ⟨none, none, some "", some "pic.png", none⟩

/-- **C6 counterexample.** With `avatar_url` present but empty and `picture`
non-empty, the claim's "first present of {avatar_url, picture}" is the empty
string, but the constructed profile carries `picture`: the `||` chain skips
present-but-empty values. -/
theorem mkNewProfile_avatar_counterexample :
    specAvatarUrl emptyAvatarMeta = some "" ∧
    (mkNewProfile ⟨"u6", none, emptyAvatarMeta⟩).avatar_url = some "pic.png" ∧
    (mkNewProfile ⟨"u6", none, emptyAvatarMeta⟩).avatar_url ≠
      specAvatarUrl emptyAvatarMeta := by
  decide

lemma firstTruthy_eq_firstPresentNonEmpty (l : List (Option String)) :
    firstTruthy l = firstPresentNonEmpty l := by
  induction l with
  | nil => rfl
  | cons x rest ih =>
    cases x with
    | none => simpa [firstTruthy, firstPresentNonEmpty, jsTruthy] using ih
    | some s =>
      by_cases hs : s = ""
      · simpa [firstTruthy, firstPresentNonEmpty, jsTruthy, hs] using ih
      · simp [firstTruthy, firstPresentNonEmpty, jsTruthy, hs]

/-- **C6 amended.** A newly constructed profile has: display name = first
present and non-empty of {metadata full_name, metadata name, local-part of
email, literal "User"}; avatar URL = first present AND NON-EMPTY of
{metadata avatar_url, metadata picture}, else null; empty
preferred-countries list; empty roles list; null seniority; null
remote-preference. -/
theorem mkNewProfile_spec (u : AuthUser) :
    (mkNewProfile u).full_name = specDisplayName u ∧
    (mkNewProfile u).avatar_url = specAvatarUrlNonEmpty u.user_metadata ∧
    (mkNewProfile u).preferred_countries = [] ∧
    (mkNewProfile u).preferred_roles = [] ∧
    (mkNewProfile u).seniority_level = none ∧
    (mkNewProfile u).remote_preference = none := by
  refine ⟨?_, ?_, rfl, rfl, rfl, rfl⟩
  · simp [mkNewProfile, derivedFullName, specDisplayName,
      firstTruthy_eq_firstPresentNonEmpty]
  · simp [mkNewProfile, derivedAvatarUrl, specAvatarUrlNonEmpty,
      firstTruthy_eq_firstPresentNonEmpty]

/-! ## The `ensureProfile` server action (src/app/actions/auth.ts) -/

/-- Result envelope of the `ensureProfile` server action. -/
inductive ActionResult
  | err (msg : String)
  | success (p : ProfileRow)
deriving DecidableEq, Repr

/-- The `ensureProfile` server action. Inputs model the
`supabase.auth.getUser()` outcome (`authError`, optional `user`); the third
output component records whether the profiles store was accessed at all. -/
def ensureProfileAction (authError : Bool) (user? : Option AuthUser)
    (s : ProfilesDB) : ActionResult × ProfilesDB × Bool :=
  match authError, user? with
  | true, _ => (ActionResult.err "Not authenticated", s, false)
  | false, none => (ActionResult.err "Not authenticated", s, false)
  | false, some u =>
    match getOrCreateProfile u s with
    | (Except.error _, s') => (ActionResult.err "Failed to create profile", s', true)
    | (Except.ok p, s') => (ActionResult.success p, s', true)

/-- **C9.** With no authenticated user (session lookup errored or returned no
user), `ensureProfile` returns the error value "Not authenticated", leaves the
profiles store unchanged, and never touches it. -/
theorem ensureProfileAction_unauthenticated (authError : Bool)
    (user? : Option AuthUser) (s : ProfilesDB)
    (h : authError = true ∨ user? = none) :
    ensureProfileAction authError user? s =
      (ActionResult.err "Not authenticated", s, false) := by
  rcases h with h | h
  · subst h; rfl
  · subst h; cases authError <;> rfl

/-- Witness for C9: an errored session lookup against the empty store. -/
theorem ensureProfileAction_unauthenticated_witness :
    ensureProfileAction true none ⟨[]⟩ =
      (ActionResult.err "Not authenticated", ⟨[]⟩, false) :=
  ensureProfileAction_unauthenticated true none ⟨[]⟩ (Or.inl rfl)

/-! ## The OAuth callback handler (src/app/auth/callback/route.ts) -/

/-- Where the callback redirects. -/
inductive Redirect
  | loginConfigError
  | loginAuthError (msg : String)
  | toPath (p : String)
deriving DecidableEq, Repr

/-- Outcome of `supabase.auth.exchangeCodeForSession`. -/
inductive ExchangeOutcome
  | ok
  | err (msg : String)
deriving DecidableEq, Repr

/-- The two environment variables the handler reads. -/
structure CallbackEnv where
  supabaseUrl : Option String
  supabaseAnonKey : Option String
deriving DecidableEq, Repr

/-- Observable outcome of one callback request: the redirect target, whether
a code-for-session exchange was attempted, and whether profile provisioning
(`ensureProfile`) ran. -/
structure CallbackResult where
  redirect : Redirect
  exchanged : Bool
  provisioned : Bool
deriving DecidableEq, Repr

/-- The callback handler `GET`. `code` and `next` are the query parameters
(`searchParams.get` yields `none` when absent); `exchange` is the outcome the
SDK would report were the exchange attempted. -/
def callbackGET (code next : Option String) (env : CallbackEnv)
    (exchange : ExchangeOutcome) : CallbackResult :=
  let nextTarget := if jsTruthy next then next.getD "/dashboard" else "/dashboard"
  if jsTruthy code then
    if !(jsTruthy env.supabaseUrl) || !(jsTruthy env.supabaseAnonKey) then
      ⟨Redirect.loginConfigError, false, false⟩
    else
      match exchange with
      | ExchangeOutcome.err m => ⟨Redirect.loginAuthError m, true, false⟩
      | ExchangeOutcome.ok => ⟨Redirect.toPath nextTarget, true, true⟩
  else
    ⟨Redirect.toPath nextTarget, false, false⟩

/-- Modelled from the claim's words: redirect to the `next` parameter's
target, defaulting to "/dashboard" only when `next` is absent. -/
def specNextTarget (next : Option String) : String :=
  next.getD "/dashboard"

/-- **C10 counterexample.** With no `code` and `next` present but empty, the
handler redirects to "/dashboard", not to the empty `next` target the claim
prescribes: the `||` default also fires on a present-but-empty `next`. -/
theorem callbackGET_empty_next_counterexample :
    (callbackGET none (some "") ⟨some "u", some "k"⟩ ExchangeOutcome.ok).redirect =
      Redirect.toPath "/dashboard" ∧
    specNextTarget (some "") ≠ "/dashboard" := by
  decide

/-- **C10 amended.** A callback request carrying no `code` performs no
exchange and no provisioning and redirects to the `next` parameter's target,
defaulting to "/dashboard" when `next` is absent OR EMPTY; and provisioning
runs only after a successful code-for-session exchange. -/
theorem callbackGET_no_code (next : Option String) (env : CallbackEnv)
    (ex : ExchangeOutcome) :
    (callbackGET none next env ex).exchanged = false ∧
    (callbackGET none next env ex).provisioned = false ∧
    (next = none ∨ next = some "" →
      (callbackGET none next env ex).redirect = Redirect.toPath "/dashboard") ∧
    (∀ t, next = some t → t ≠ "" →
      (callbackGET none next env ex).redirect = Redirect.toPath t) ∧
    (∀ code, (callbackGET code next env ex).provisioned = true →
      jsTruthy code = true ∧ ex = ExchangeOutcome.ok) := by
  refine ⟨rfl, rfl, ?_, ?_, ?_⟩
  · rintro (h | h) <;> subst h <;> rfl
  · intro t ht hne
    subst ht
    simp [callbackGET, jsTruthy, hne]
  · intro code hprov
    by_cases hc : jsTruthy code = true
    · refine ⟨hc, ?_⟩
      by_cases henv : (!(jsTruthy env.supabaseUrl) || !(jsTruthy env.supabaseAnonKey)) = true
      · simp [callbackGET, hc, henv] at hprov
      · cases ex with
        | ok => rfl
        | err m =>
          simp only [callbackGET, hc, if_true] at hprov
          rw [if_neg (by simpa using henv)] at hprov
          simp at hprov
    · exfalso
      have hc' : jsTruthy code = false := by
        cases h : jsTruthy code
        · rfl
        · exact absurd h hc
      simp [callbackGET, hc'] at hprov

/-- Witness for the amended C10: no code, `next=/jobs`, exchange would
succeed. -/
theorem callbackGET_no_code_witness :
    (callbackGET none (some "/jobs") ⟨some "u", some "k"⟩
        ExchangeOutcome.ok).redirect = Redirect.toPath "/jobs" ∧
    (callbackGET none (some "/jobs") ⟨some "u", some "k"⟩
        ExchangeOutcome.ok).exchanged = false := by
  have h := callbackGET_no_code (some "/jobs") ⟨some "u", some "k"⟩
    ExchangeOutcome.ok
  exact ⟨h.2.2.2.1 "/jobs" rfl (by decide), h.1⟩

/-! ## The application pipeline

The `applications` table (src/unnamed/part_000) carries the status enum
check constraint, the nullable `applied_at`, and `unique(user_id, job_id)`.
The pipeline service itself (`createApplication`, `updateStatus`) is not
implemented in the source tree; it is modelled from the specification §4.2
over that schema. -/

/-- The status check constraint of the `applications` (and `jobs`) tables. -/
def statusEnum : List String := ["saved", "applied", "interview", "offer", "rejected"]

/-- A `jobs` row, restricted to the columns the pipeline service consults
(identity and owning user; the remaining columns play no role here). -/
structure JobRow where
  id : String
  user_id : String
deriving DecidableEq, Repr

/-- An `applications` row (src/unnamed/part_000). -/
structure AppRow where
  id : String
  user_id : String
  job_id : String
  status : String
  applied_at : Option Nat
  notes : Option String
deriving DecidableEq, Repr

/-- An `audit_log` row (src/unnamed/part_000), metadata as key-value pairs. -/
structure AuditEntry where
  user_id : Option String
  action : String
  resource : String
  resource_id : Option String
  metadata : List (String × String)
deriving DecidableEq, Repr

/-- The pipeline store: jobs, applications, audit log. -/
structure PipelineDB where
  jobs : List JobRow
  apps : List AppRow
  audit : List AuditEntry
deriving DecidableEq, Repr

/-- The error taxonomy of spec §7 relevant to the pipeline service. -/
inductive SvcError
  | NotFound
  | Forbidden
  | ValidationError
  | DuplicateApplication
deriving DecidableEq, Repr

/-- At most one application row per (owning-user, job) pair — the
`unique(user_id, job_id)` constraint of the `applications` table. -/
def pairUnique (s : PipelineDB) : Prop :=
  s.apps.Pairwise (fun a b => ¬(a.user_id = b.user_id ∧ a.job_id = b.job_id))

instance (s : PipelineDB) : Decidable (pairUnique s) :=
  inferInstanceAs (Decidable (s.apps.Pairwise _))

/-- Modelled from the spec: `createApplication(userId, jobId, initialNotes?)`
(§4.2) — the pipeline service is absent from src; only the applications
schema is there. Rejects a job that does not exist (NotFound) or is not owned
by the caller (Forbidden); fails with DuplicateApplication when an
application for the pair exists; otherwise inserts a new application with
status "saved", null applied_at and the given notes, and appends one audit
entry (action "create", resource "application"). `newId` stands for the
generated row id. -/
def createApplication (userId jobId : String) (notes : Option String)
    (newId : String) (s : PipelineDB) : Except SvcError AppRow × PipelineDB :=
  match s.jobs.find? (fun j => j.id == jobId) with
  | none => (Except.error SvcError.NotFound, s)
  | some j =>
    if j.user_id ≠ userId then
      (Except.error SvcError.Forbidden, s)
    else if s.apps.any (fun a => a.user_id == userId && a.job_id == jobId) then
      (Except.error SvcError.DuplicateApplication, s)
    else
      let a : AppRow := ⟨newId, userId, jobId, "saved", none, notes⟩
      (Except.ok a,
        { s with
          apps := s.apps ++ [a]
          audit := s.audit ++ [⟨some userId, "create", "application", some newId, []⟩] })

/-- Modelled from the spec: `updateStatus(userId, applicationId, newStatus)`
(§4.2) at time `now`. Rejects a missing application (NotFound) or one not
owned by the caller (Forbidden); validates the status against the five-value
enum (ValidationError); otherwise updates the status, stamps `applied_at`
only when the new status is "applied" and `applied_at` is currently null, and
appends one audit entry (action "update", metadata holding old and new
status). -/
def updateStatus (userId appId newStatus : String) (now : Nat)
    (s : PipelineDB) : Except SvcError AppRow × PipelineDB :=
  match s.apps.find? (fun b => b.id == appId) with
  | none => (Except.error SvcError.NotFound, s)
  | some a =>
    if a.user_id ≠ userId then
      (Except.error SvcError.Forbidden, s)
    else if statusEnum.contains newStatus then
      let a' : AppRow :=
        { a with
          status := newStatus
          applied_at :=
            if newStatus == "applied" && a.applied_at.isNone then some now
            else a.applied_at }
      (Except.ok a',
        { s with
          apps := s.apps.map (fun b => if b.id == appId then a' else b)
          audit := s.audit ++
            [⟨some userId, "update", "application", some appId,
              [("old_status", a.status), ("new_status", newStatus)]⟩] })
    else
      (Except.error SvcError.ValidationError, s)

/-- **C2.** In any store satisfying the (owning-user, job) uniqueness
constraint, `createApplication` preserves it — at most one application per
pair ever exists — and after a successful `createApplication(U, J, ...)` a
second call for the same pair fails with `DuplicateApplication`. -/
theorem createApplication_unique (uid jid : String) (notes : Option String)
    (nid : String) (s : PipelineDB) (hwf : pairUnique s) :
    pairUnique (createApplication uid jid notes nid s).2 ∧
    ∀ a, (createApplication uid jid notes nid s).1 = Except.ok a →
      ∀ notes2 nid2,
        (createApplication uid jid notes2 nid2
            (createApplication uid jid notes nid s).2).1 =
          Except.error SvcError.DuplicateApplication := by
  cases hj : s.jobs.find? (fun j => j.id == jid) with
  | none =>
    refine ⟨by simpa [createApplication, hj] using hwf, ?_⟩
    intro a ha
    simp [createApplication, hj] at ha
  | some j =>
    by_cases hown : j.user_id = uid
    · by_cases hdup : s.apps.any (fun b => b.user_id == uid && b.job_id == jid) = true
      · refine ⟨by simpa [createApplication, hj, hown, hdup] using hwf, ?_⟩
        intro a ha
        simp [createApplication, hj, hown, hdup] at ha
      · have hdup' : s.apps.any (fun b => b.user_id == uid && b.job_id == jid) = false := by
          simpa using hdup
        have hall : ∀ b ∈ s.apps, ¬(b.user_id = uid ∧ b.job_id = jid) := by
          intro b hb hcontra
          have := List.any_eq_false.mp hdup' b hb
          simp [hcontra.1, hcontra.2] at this
        constructor
        · simp only [createApplication, hj, hown, ne_eq, not_true_eq_false,
            if_false, hdup', Bool.false_eq_true, if_neg]
          unfold pairUnique
          rw [List.pairwise_append]
          refine ⟨hwf, List.pairwise_singleton _ _, ?_⟩
          intro x hx y hy
          have hy' : y = (⟨nid, uid, jid, "saved", none, notes⟩ : AppRow) := by
            simpa using hy
          subst hy'
          exact fun hcontra => hall x hx ⟨hcontra.1, hcontra.2⟩
        · intro a _ notes2 nid2
          have hany2 : (s.apps ++
              [(⟨nid, uid, jid, "saved", none, notes⟩ : AppRow)]).any
                (fun b => b.user_id == uid && b.job_id == jid) = true := by
            rw [List.any_append]
            simp
          simp [createApplication, hj, hown, hdup', hany2]
    · refine ⟨by simpa [createApplication, hj, hown] using hwf, ?_⟩
      intro a ha
      simp [createApplication, hj, hown] at ha

/-- Witness for C2: one job "j1" owned by "u1"; a first create succeeds and
the second fails with DuplicateApplication. -/
theorem createApplication_unique_witness :
    pairUnique (⟨[⟨"j1", "u1"⟩], [], []⟩ : PipelineDB) ∧
    (createApplication "u1" "j1" none "a2"
        (createApplication "u1" "j1" (some "hi") "a1"
          ⟨[⟨"j1", "u1"⟩], [], []⟩).2).1 =
      Except.error SvcError.DuplicateApplication := by
  refine ⟨by decide, ?_⟩
  have h := createApplication_unique "u1" "j1" (some "hi") "a1"
    ⟨[⟨"j1", "u1"⟩], [], []⟩ (by decide)
  exact h.2 ⟨"a1", "u1", "j1", "saved", none, some "hi"⟩ (by decide) none "a2"

lemma find?_map_replace (apps : List AppRow) (appId : String) (a' : AppRow)
    (hid : (a'.id == appId) = true)
    (h : (apps.find? (fun b => b.id == appId)).isSome = true) :
    (apps.map (fun b => if b.id == appId then a' else b)).find?
      (fun b => b.id == appId) = some a' := by
  induction apps with
  | nil => simp [List.find?] at h
  | cons x xs ih =>
    by_cases hx : (x.id == appId) = true
    · simp [List.find?, hx, hid]
    · have hx' : (x.id == appId) = false := by simpa using hx
      simp only [List.map_cons, if_neg (by simp [hx'] : ¬(x.id == appId) = true)]
      rw [List.find?_cons_of_neg _ (by simp [hx'])]
      apply ih
      rw [List.find?_cons_of_neg _ (by simp [hx'])] at h
      exact h

lemma updateStatus_eq (uid appId ns : String) (now : Nat) (s : PipelineDB)
    (a a' : AppRow)
    (hfind : s.apps.find? (fun b => b.id == appId) = some a)
    (hown : a.user_id = uid)
    (hval : statusEnum.contains ns = true)
    (ha' : a' =
      { a with
        status := ns
        applied_at :=
          if ns == "applied" && a.applied_at.isNone then some now
          else a.applied_at }) :
    updateStatus uid appId ns now s =
      (Except.ok a',
        { s with
          apps := s.apps.map (fun b => if b.id == appId then a' else b)
          audit := s.audit ++
            [⟨some uid, "update", "application", some appId,
              [("old_status", a.status), ("new_status", ns)]⟩] }) := by
  subst ha'
  have hmem : ns ∈ statusEnum := by simpa using hval
  simp [updateStatus, hfind, hown, hval, hmem]

/-- **C3.** For an application with null `applied_at`, `updateStatus` to
"applied" at time t1 stamps `applied_at = t1` (non-null); a later transition
to any other valid status and back to "applied" at a later time leaves the
originally stamped value t1 unchanged — it is never overwritten. -/
theorem updateStatus_applied_at_one_shot (uid st : String) (s : PipelineDB)
    (a : AppRow) (t1 t2 t3 : Nat)
    (hfind : s.apps.find? (fun b => b.id == a.id) = some a)
    (hown : a.user_id = uid)
    (hnull : a.applied_at = none)
    (hst : statusEnum.contains st = true) :
    ∃ a1 a2 a3,
      (updateStatus uid a.id "applied" t1 s).1 = Except.ok a1 ∧
      a1.applied_at = some t1 ∧
      (updateStatus uid a.id st t2
        (updateStatus uid a.id "applied" t1 s).2).1 = Except.ok a2 ∧
      a2.applied_at = some t1 ∧
      (updateStatus uid a.id "applied" t3
        (updateStatus uid a.id st t2
          (updateStatus uid a.id "applied" t1 s).2).2).1 = Except.ok a3 ∧
      a3.applied_at = some t1 := by
  have hval1 : statusEnum.contains "applied" = true := by decide
  have h1 := updateStatus_eq uid a.id "applied" t1 s a
    ({ a with status := "applied", applied_at := some t1 })
    hfind hown hval1 (by simp [hnull])
  have hfind1 : (updateStatus uid a.id "applied" t1 s).2.apps.find?
      (fun b => b.id == a.id) =
      some { a with status := "applied", applied_at := some t1 } := by
    rw [h1]
    exact find?_map_replace s.apps a.id _ (by simp) (by simp [hfind])
  have h2 := updateStatus_eq uid a.id st t2
    (updateStatus uid a.id "applied" t1 s).2
    ({ a with status := "applied", applied_at := some t1 })
    ({ a with status := st, applied_at := some t1 })
    hfind1 hown hst (by simp)
  have hfind2 : (updateStatus uid a.id st t2
        (updateStatus uid a.id "applied" t1 s).2).2.apps.find?
      (fun b => b.id == a.id) =
      some { a with status := st, applied_at := some t1 } := by
    rw [h2]
    exact find?_map_replace _ a.id _ (by simp) (by simp [hfind1])
  have h3 := updateStatus_eq uid a.id "applied" t3
    (updateStatus uid a.id st t2 (updateStatus uid a.id "applied" t1 s).2).2
    ({ a with status := st, applied_at := some t1 })
    ({ a with status := "applied", applied_at := some t1 })
    hfind2 hown hval1 (by simp)
  exact ⟨_, _, _, by rw [h1], rfl, by rw [h2], rfl, by rw [h3], rfl⟩

/-- Witness for C3: a saved application stamped at time 1, moved to
"interview" at time 2 and back to "applied" at time 3 keeps `applied_at = 1`. -/
theorem updateStatus_applied_at_one_shot_witness :
    let s : PipelineDB :=
      ⟨[⟨"j1", "u1"⟩], [⟨"a1", "u1", "j1", "saved", none, none⟩], []⟩
    ∃ a1 a2 a3,
      (updateStatus "u1" "a1" "applied" 1 s).1 = Except.ok a1 ∧
      a1.applied_at = some 1 ∧
      (updateStatus "u1" "a1" "interview" 2
        (updateStatus "u1" "a1" "applied" 1 s).2).1 = Except.ok a2 ∧
      a2.applied_at = some 1 ∧
      (updateStatus "u1" "a1" "applied" 3
        (updateStatus "u1" "a1" "interview" 2
          (updateStatus "u1" "a1" "applied" 1 s).2).2).1 = Except.ok a3 ∧
      a3.applied_at = some 1 :=
  updateStatus_applied_at_one_shot "u1" "interview"
    ⟨[⟨"j1", "u1"⟩], [⟨"a1", "u1", "j1", "saved", none, none⟩], []⟩
    ⟨"a1", "u1", "j1", "saved", none, none⟩ 1 2 3
    (by decide) rfl rfl (by decide)

/-! ## Row-level security on `audit_log` (src/unnamed/part_000) -/

/-- A SQL command class, as RLS policies distinguish them. -/
inductive SqlCmd
  | select
  | insert
  | update
  | delete
deriving DecidableEq, Repr

/-- One RLS policy on `audit_log`: the command it applies to and its
`using`/`with check` predicate over the caller's `auth.uid()` and the row. -/
structure AuditPolicy where
  cmd : SqlCmd
  check : String → AuditEntry → Bool

/-- The RLS policies declared on `audit_log` by the migration: exactly one —
"Users can view own audit logs", `for select using (auth.uid() = user_id)` —
and deliberately no insert, update or delete policy (inserts go through the
service role only). SQL `auth.uid() = user_id` is null-rejecting: a row whose
`user_id` was set null never matches. -/
def auditLogPolicies : List AuditPolicy :=
  [⟨SqlCmd.select, fun uid row => row.user_id == some uid⟩]

/-- With RLS enabled, an ordinary principal's command touches a row only if
some declared policy for that command passes; no policy means deny. -/
def rlsAllows (ps : List AuditPolicy) (cmd : SqlCmd) (uid : String)
    (row : AuditEntry) : Bool :=
  ps.any (fun p => p.cmd == cmd && p.check uid row)

/-- **C7.** `audit_log` is append-only and insert-restricted for ordinary
principals: RLS admits no insert, update or delete at all, and admits a
select exactly on the rows whose acting user is the caller. -/
theorem audit_log_append_only (uid : String) (row : AuditEntry) :
    rlsAllows auditLogPolicies SqlCmd.insert uid row = false ∧
    rlsAllows auditLogPolicies SqlCmd.update uid row = false ∧
    rlsAllows auditLogPolicies SqlCmd.delete uid row = false ∧
    (rlsAllows auditLogPolicies SqlCmd.select uid row = true ↔
      row.user_id = some uid) := by
  refine ⟨?_, ?_, ?_, ?_⟩ <;> simp [rlsAllows, auditLogPolicies]

/-! ## The artifact approval gate (C8)

The `artifacts` schema (src/unnamed/part_000) declares
`approved boolean default false not null`; the artifact operations
themselves are not implemented in the source tree and are modelled from the
specification (§3 Artifact, §6 AI Generation Service). -/

/-- The stored default of `artifacts.approved` in the migration. -/
def artifactApprovedDefault : Bool := false

/-- An `artifacts` row (src/unnamed/part_000). -/
structure ArtifactRow where
  id : String
  user_id : String
  job_id : Option String
  type : String
  content : String
  version : String
  model : Option String
  prompt_version : Option String
  approved : Bool
deriving DecidableEq, Repr

/-- Modelled from the spec: creation of an artifact by the generation action
— a new row with the given fields, version default "1.0" and `approved` at
its stored default; the AI service never sets `approved`. -/
def mkArtifactRow (id uid : String) (jid : Option String) (ty content : String)
    (model promptVersion : Option String) : ArtifactRow :=
  ⟨id, uid, jid, ty, content, "1.0", model, promptVersion,
    artifactApprovedDefault⟩

/-- Modelled from the spec: the operations the system exposes on artifacts —
creation by the generation action, and the explicit user approval action
(the only update the human-in-the-loop gate admits). -/
inductive ArtifactOp
  | create (id uid : String) (jid : Option String) (ty content : String)
      (model promptVersion : Option String)
  | approve (id : String)

/-- Apply an artifact operation to the artifacts store. -/
def applyArtifactOp : ArtifactOp → List ArtifactRow → List ArtifactRow
  | ArtifactOp.create i u j t c m p, rows => rows ++ [mkArtifactRow i u j t c m p]
  | ArtifactOp.approve i, rows =>
    rows.map (fun a => if a.id == i then { a with approved := true } else a)

/-- **C8.** Every newly created artifact carries `approved = false` (the
stored default), and after any operation, a row with `approved = true` was
either already in the store or the operation was an explicit approve: no
operation other than approval ever sets the flag. -/
theorem artifact_approval_gate (op : ArtifactOp) (rows : List ArtifactRow) :
    (∀ i u j t c m p, (mkArtifactRow i u j t c m p).approved = false) ∧
    (∀ a, a ∈ applyArtifactOp op rows → a.approved = true →
      a ∈ rows ∨ ∃ i, op = ArtifactOp.approve i) := by
  refine ⟨fun _ _ _ _ _ _ _ => rfl, ?_⟩
  intro a ha happ
  cases op with
  | create i u j t c m p =>
    left
    rcases List.mem_append.mp ha with h | h
    · exact h
    · exfalso
      have h' : a = mkArtifactRow i u j t c m p := by simpa using h
      subst h'
      simp [mkArtifactRow, artifactApprovedDefault] at happ
  | approve i =>
    right
    exact ⟨i, rfl⟩

/-- Witness for C8: a freshly generated CV is unapproved, and the row turned
true by an explicit approve is accounted for by the approve operation. -/
theorem artifact_approval_gate_witness :
    (mkArtifactRow "x" "u1" none "cv" "body" none none).approved = false ∧
    ((⟨"x", "u1", none, "cv", "body", "1.0", none, none, true⟩ : ArtifactRow) ∈
        [(⟨"x", "u1", none, "cv", "body", "1.0", none, none, false⟩ : ArtifactRow)] ∨
      ∃ i, ArtifactOp.approve "x" = ArtifactOp.approve i) := by
  have h := artifact_approval_gate (ArtifactOp.approve "x")
    [⟨"x", "u1", none, "cv", "body", "1.0", none, none, false⟩]
  exact ⟨h.1 "x" "u1" none "cv" "body" none none,
    h.2 ⟨"x", "u1", none, "cv", "body", "1.0", none, none, true⟩ (by decide) rfl⟩

end Opportunity
